import Mathlib

/-!
Verification of the cave-survey shot reduction and validation pipeline of the
CKKC expedition-management application (`app.py`).

The embedding models:
* `shot_to_cartesian` — the pure geometry reducer (reals, exact trigonometry);
* `survey_submit` — the survey ingestion pipeline: header validation,
  per-shot parsing and validation, message rendering, and the dual-write
  persistence step, as a function from a submission and a database state to
  an outcome and a new database state;
* `admin_survey_update` — the edit flow that rebuilds and replaces a stored
  header's serialized shot list.

Numeric form fields are modelled over `ℚ`: a raw form string for a numeric
field is either blank (empty or whitespace-only, which also covers an absent
field), a parsed number, or unparseable text.  Database rows are lists of
records; surrogate ids are assigned sequentially, mirroring insertion order.
SQL execution is modelled at the statement level: each INSERT/UPDATE/SELECT
of the source acts on the corresponding list.
-/

/-- Drop leading whitespace characters from a character list. -/
def List.dropWhitespace : List Char → List Char
  | [] => []
  | c :: cs => if c.isWhitespace then List.dropWhitespace cs else c :: cs

/-- Python's `str.strip()`: remove leading and trailing whitespace. -/
def String.strip (s : String) : String :=
  ⟨(List.dropWhitespace (List.dropWhitespace s.data).reverse).reverse⟩

namespace Ckkc

/-! ### Geometry reducer (`shot_to_cartesian`, app.py lines 102–116) -/

/-- Degree-to-radian conversion, `math.radians`. -/
noncomputable def radians (deg : ℝ) : ℝ := deg * Real.pi / 180

/-- `shot_to_cartesian(distance, azimuth_deg, inclination_deg)`:
returns `(0,0,0)` when any argument is `None`; otherwise converts the polar
measurement to Cartesian `(east, north, up)` displacement. -/
noncomputable def shot_to_cartesian (distance azimuth_deg inclination_deg : Option ℝ) :
    ℝ × ℝ × ℝ :=
  match distance, azimuth_deg, inclination_deg with
  | some d, some az, some inc =>
    let inc_rad := radians inc
    let az_rad := radians az
    let horizontal_distance := d * Real.cos inc_rad
    (horizontal_distance * Real.sin az_rad,
     horizontal_distance * Real.cos az_rad,
     d * Real.sin inc_rad)
  | _, _, _ => (0, 0, 0)

/-! ### Raw form values -/

/-- A raw numeric form field as the pipeline sees it: blank after stripping
(also covering an absent field), a string parsing to a number, or a
non-blank string on which `float()` raises `ValueError`. -/
inductive RawNum where
  | blank : RawNum
  | num (q : ℚ) : RawNum
  | bad : RawNum
deriving DecidableEq

/-! ### Parsed shot records (`survey_shots` entries of `survey_submit`) -/

/-- One parsed survey shot, as appended to `survey_shots`
(app.py lines 1197–1211).  Station names are stored stripped. -/
structure Shot where
  from_station : String
  to_station : String
  distance : Option ℚ
  azimuth_fs : Option ℚ
  azimuth_bs : Option ℚ
  inclination_fs : Option ℚ
  inclination_bs : Option ℚ
  left : ℚ
  right : ℚ
  up : ℚ
  down : ℚ
  note : String
deriving DecidableEq

/-- One shot entry built by the edit flow (app.py lines 708–721): every
field is kept as the raw form string (nothing parsed, `from_station`
unstripped), missing array entries defaulting to the empty string. -/
structure EditShot where
  from_station : String
  to_station : String
  distance : String
  azimuth_fs : String
  azimuth_bs : String
  inclination_fs : String
  inclination_bs : String
  left : String
  right : String
  up : String
  down : String
  notes : String
deriving DecidableEq

/-! ### Shot-level violations (app.py lines 1148–1215)

The two variance constructors correspond to the messages of the disabled
enforcement branches (lines 1190 and 1195); the validator never emits them. -/

inductive Violation where
  | parseError (sid : Nat) : Violation
  | negDistance (sid : Nat) : Violation
  | azFsRange (sid : Nat) : Violation
  | azBsRange (sid : Nat) : Violation
  | incFsRange (sid : Nat) : Violation
  | incBsRange (sid : Nat) : Violation
  | lrudNegative (sid : Nat) : Violation
  | fromStationTooLong (sid : Nat) : Violation
  | toStationTooLong (sid : Nat) : Violation
  | azVarianceLarge (sid : Nat) : Violation
  | incVarianceLarge (sid : Nat) : Violation
deriving DecidableEq

/-- The flash message of each violation (the `str(e)` detail of a Python
`ValueError` is abstracted away). -/
def violationMessage : Violation → String
  | .parseError sid => "Shot " ++ toString sid ++ ": Invalid numeric value"
  | .negDistance sid => "Shot " ++ toString sid ++ ": Distance cannot be negative"
  | .azFsRange sid => "Shot " ++ toString sid ++ ": Frontsight azimuth must be 0-359°"
  | .azBsRange sid => "Shot " ++ toString sid ++ ": Backsight azimuth must be 0-359°"
  | .incFsRange sid => "Shot " ++ toString sid ++ ": Frontsight inclination must be -90° to 90°"
  | .incBsRange sid => "Shot " ++ toString sid ++ ": Backsight inclination must be -90° to 90°"
  | .lrudNegative sid => "Shot " ++ toString sid ++ ": LRUD values cannot be negative"
  | .fromStationTooLong sid => "Shot " ++ toString sid ++ ": From station name too long (max 20 characters)"
  | .toStationTooLong sid => "Shot " ++ toString sid ++ ": To station name too long (max 20 characters)"
  | .azVarianceLarge sid => "Shot " ++ toString sid ++ ": Large azimuth variance - check readings"
  | .incVarianceLarge sid => "Shot " ++ toString sid ++ ": Large inclination variance - check readings"

/-- Azimuth frontsight/backsight variance (app.py lines 1186–1188):
minimal angular distance between the absolute difference and 180°. -/
def azimuthVariance (fs bs : ℚ) : ℚ :=
  let diff := |fs - bs|
  min (min |diff - 180| |diff - 180 + 360|) |diff - 180 - 360|

/-- Inclination frontsight/backsight variance (app.py line 1193). -/
def inclinationVariance (fs bs : ℚ) : ℚ := |fs + bs|

/-- Distance check (line 1152): present and negative. -/
def badDistance : Option ℚ → Bool
  | none => false
  | some d => decide (d < 0)

/-- Azimuth range check (lines 1156, 1159): present and outside `[0, 360)`. -/
def badAzimuth : Option ℚ → Bool
  | none => false
  | some a => decide (a < 0) || decide (360 ≤ a)

/-- Inclination range check (lines 1163, 1166): present and outside `[-90, 90]`. -/
def badInclination : Option ℚ → Bool
  | none => false
  | some a => decide (a < -90) || decide (90 < a)

/-- Per-shot validation (app.py lines 1151–1195), in source order.  The
variance quantities are computed when both sights are present, but their
enforcement branches are disabled (`pass`), so they contribute no
violation. -/
def shotViolations (sid : Nat) (s : Shot) : List Violation :=
  (if badDistance s.distance then [.negDistance sid] else []) ++
  (if badAzimuth s.azimuth_fs then [.azFsRange sid] else []) ++
  (if badAzimuth s.azimuth_bs then [.azBsRange sid] else []) ++
  (if badInclination s.inclination_fs then [.incFsRange sid] else []) ++
  (if badInclination s.inclination_bs then [.incBsRange sid] else []) ++
  (if decide (s.left < 0) || decide (s.right < 0) || decide (s.up < 0) || decide (s.down < 0)
    then [.lrudNegative sid] else []) ++
  (if decide (20 < s.from_station.length) then [.fromStationTooLong sid] else []) ++
  (if decide (20 < s.to_station.length) then [.toStationTooLong sid] else [])

/-! ### Submission input (form fields of `survey_submit`, app.py lines 986–1037) -/

/-- The form data of one survey submission.  String fields hold the raw form
value (the pipeline strips them itself); numeric instrument readings and the
per-shot numeric arrays are `RawNum`s.  The checkbox fields are `Bool`
(the source coerces them to `1`/`0`). -/
structure SubmitInput where
  cave_name : String := ""
  state : String := ""
  county : String := ""
  region : String := ""
  survey_date : String := ""
  fsb_number : String := ""
  area_in_cave : String := ""
  time_in : String := ""
  time_out : String := ""
  survey_objective : String := ""
  conditions : String := ""
  other_info : String := ""
  book_sketch_person : String := ""
  instrument_reader : String := ""
  tape_person : String := ""
  point_person : String := ""
  trip_leader : String := ""
  other_team_members : String := ""
  compass_id : String := ""
  compass_frontsight : RawNum := .blank
  compass_backsight : RawNum := .blank
  inclinometer_id : String := ""
  inclinometer_frontsight : RawNum := .blank
  inclinometer_backsight : RawNum := .blank
  crf_compass_course : Bool := false
  calibration_notes : String := ""
  additional_equipment : String := ""
  from_stations : List String := []
  to_stations : List String := []
  distances : List RawNum := []
  azimuth_fs_list : List RawNum := []
  azimuth_bs_list : List RawNum := []
  inclination_fs_list : List RawNum := []
  inclination_bs_list : List RawNum := []
  left_list : List RawNum := []
  right_list : List RawNum := []
  up_list : List RawNum := []
  down_list : List RawNum := []
  notes_list : List String := []
  raw_data : String := ""
  instruments_crf_course : Bool := false
  data_accuracy : Bool := false
deriving DecidableEq

/-- An instrument-reading check of the header (app.py lines 1088–1126):
skipped when blank, `invalidMsg` when the string fails to parse, `rangeMsg`
when the parsed value is out of range. -/
def instrumentCheck (raw : RawNum) (bad : ℚ → Bool) (rangeMsg invalidMsg : String) :
    Option String :=
  match raw with
  | .blank => none
  | .bad => some invalidMsg
  | .num v => if bad v then some rangeMsg else none

/-- Header validation (app.py lines 1040–1126): the chain of early-return
checks, in source order; the first failing check's message is returned. -/
def headerCheck (inp : SubmitInput) : Option String :=
  if inp.cave_name.strip = "" then some "Cave name is required."
  else if inp.survey_date.strip = "" then some "Survey date is required."
  else if !inp.data_accuracy then some "You must confirm the accuracy of the survey data."
  else if inp.book_sketch_person.strip = "" then some "Book/Sketch person is required."
  else if inp.instrument_reader.strip = "" then some "Instrument reader is required."
  else if inp.tape_person.strip = "" then some "Tape person is required."
  else if inp.point_person.strip = "" then some "Point person is required."
  else if inp.trip_leader.strip = "" then some "Trip/Survey leader is required."
  else if inp.compass_id.strip = "" then some "Compass ID is required."
  else if inp.inclinometer_id.strip = "" then some "Inclinometer ID is required."
  else if !inp.crf_compass_course then
    some "You must confirm that instruments were shot on the CRF Compass Course."
  else
    instrumentCheck inp.compass_frontsight
      (fun v => decide (v ≤ 180) || decide (360 < v))
      "Compass frontsight must be > 180° (expected range 181-360°)."
      "Invalid compass frontsight value." <|>
    instrumentCheck inp.compass_backsight
      (fun v => decide (v < 0) || decide (180 ≤ v))
      "Compass backsight must be < 180° (expected range 0-179°)."
      "Invalid compass backsight value." <|>
    instrumentCheck inp.inclinometer_frontsight
      (fun v => decide (v < -90) || decide (90 < v))
      "Inclinometer frontsight must be between -90° and 90°."
      "Invalid inclinometer frontsight value." <|>
    instrumentCheck inp.inclinometer_backsight
      (fun v => decide (v < -90) || decide (90 < v))
      "Inclinometer backsight must be between -90° and 90°."
      "Invalid inclinometer backsight value."

/-! ### Shot parsing (app.py lines 1133–1146) -/

/-- `float(l[i]) if i < len(l) and l[i].strip() else None`: a guarded
nullable numeric field; an unparseable non-blank entry raises. -/
def parseOptNum (l : List RawNum) (i : Nat) : Except Unit (Option ℚ) :=
  if i < l.length then
    match l.getD i .blank with
    | .blank => .ok none
    | .num q => .ok (some q)
    | .bad => .error ()
  else .ok none

/-- `float(l[i]) if i < len(l) and l[i].strip() else 0`: a guarded numeric
field defaulting to `0` (the LRUD fields). -/
def parseDefNum (l : List RawNum) (i : Nat) : Except Unit ℚ :=
  if i < l.length then
    match l.getD i .blank with
    | .blank => .ok 0
    | .num q => .ok q
    | .bad => .error ()
  else .ok 0

/-- `notes_list[i].strip() if i < len(notes_list) else ''`. -/
def noteAt (l : List String) (i : Nat) : String :=
  if i < l.length then (l.getD i "").strip else ""

/-- Field parsing of shot `i` (app.py lines 1137–1146), in source order;
any `ValueError` aborts the shot's parse. -/
def parseShotFields (inp : SubmitInput) (i : Nat) : Except Unit Shot := do
  let distance ← parseOptNum inp.distances i
  let azimuth_fs ← parseOptNum inp.azimuth_fs_list i
  let azimuth_bs ← parseOptNum inp.azimuth_bs_list i
  let inclination_fs ← parseOptNum inp.inclination_fs_list i
  let inclination_bs ← parseOptNum inp.inclination_bs_list i
  let left ← parseDefNum inp.left_list i
  let right ← parseDefNum inp.right_list i
  let up ← parseDefNum inp.up_list i
  let down ← parseDefNum inp.down_list i
  .ok { from_station := (inp.from_stations.getD i "").strip
        to_station := (inp.to_stations.getD i "").strip
        distance, azimuth_fs, azimuth_bs, inclination_fs, inclination_bs
        left, right, up, down
        note := noteAt inp.notes_list i }

/-- The body of loop iteration `i` (app.py lines 1133–1215): `none` when the
materialization guard of line 1134 fails (or `i` is past `from_stations`);
otherwise the parse error or the parsed shot with its violations. -/
def shotResultAt (inp : SubmitInput) (i : Nat) : Option (List Violation × Option Shot) :=
  if i < inp.from_stations.length ∧ i < inp.to_stations.length ∧
      (inp.from_stations.getD i "").strip ≠ "" ∧ (inp.to_stations.getD i "").strip ≠ "" then
    match parseShotFields inp i with
    | .error _ => some ([.parseError (i + 1)], none)
    | .ok s => some (shotViolations (i + 1) s, some s)
  else none

/-- The whole shot loop: the `validation_errors` appended across iterations
in order, and the `survey_shots` appended across iterations in order
(`valid_shot_count` is the latter's length). -/
def processShots (inp : SubmitInput) : List Violation × List Shot :=
  ((List.range inp.from_stations.length).flatMap
      (fun i => match shotResultAt inp i with
        | none => []
        | some r => r.1),
   (List.range inp.from_stations.length).filterMap
      (fun i => (shotResultAt inp i).bind (fun r => r.2)))

/-- The flash messages of a rejected shot list (app.py lines 1218–1222):
the first five violations, then a count summary when more than five exist. -/
def flashedMessages (errs : List Violation) : List String :=
  (errs.take 5).map violationMessage ++
    (if 5 < errs.length then
      ["... and " ++ toString (errs.length - 5) ++ " more validation errors"]
    else [])

/-! ### Database model

Each table is a list of rows; surrogate ids (`lastrowid`) are assigned
sequentially as `length + 1` at insertion.  The `created_date` column
(wall-clock `NOW()`) is not modelled. -/

/-- A `survey_header` column that receives a float from the submission flow
but a raw string (or SQL NULL) from the edit flow. -/
inductive FieldVal where
  | fnull : FieldVal
  | fnum (q : ℚ) : FieldVal
  | fstr (s : String) : FieldVal
deriving DecidableEq

/-- The serialized `survey_shots_json` column: the submission flow dumps
parsed shot records, the edit flow dumps raw-string records. -/
inductive SerializedShots where
  | fromSubmit (shots : List Shot) : SerializedShots
  | fromEdit (shots : List EditShot) : SerializedShots
deriving DecidableEq

/-- One row of the legacy `survey_header` table (INSERT of app.py
lines 1240–1260). -/
structure HeaderRow where
  id : Nat
  cave_name : String
  state : String
  county : String
  region : String
  survey_date : String
  fsb_number : String
  area_in_cave : String
  time_in : String
  time_out : String
  survey_objective : String
  conditions : String
  other_info : String
  book_sketch_person : String
  instrument_reader : String
  tape_person : String
  point_person : String
  trip_leader : String
  other_team_members : String
  compass_id : String
  compass_frontsight : FieldVal
  compass_backsight : FieldVal
  inclinometer_id : String
  inclinometer_frontsight : FieldVal
  inclinometer_backsight : FieldVal
  crf_compass_course : Bool
  calibration_notes : String
  additional_equipment : String
  survey_shots_json : SerializedShots
  raw_data : String
  instruments_crf_course : Bool
  data_accuracy : Bool
deriving DecidableEq

/-- One row of the normalized `caves` table. -/
structure CaveRow where
  cave_id : Nat
  name : String
  location_text : String
deriving DecidableEq

/-- One row of the normalized `surveys` table (INSERT of app.py
lines 1277–1282). -/
structure SurveyRow where
  survey_id : Nat
  cave_id : Nat
  date : String
  area_in_cave : String
  objective : String
  time_in : String
  time_out : String
  conditions : String
  survey_designation_raw : String
  units_length : String
  units_compass : String
  units_clino : String
deriving DecidableEq

/-- One row of the normalized `shots` table (INSERT of app.py
lines 1288–1299). -/
structure ShotRow where
  survey_id : Nat
  sequence_in_page : Nat
  station_from : String
  station_to : String
  distance : Option ℚ
  fs_azimuth_deg : Option ℚ
  bs_azimuth_deg : Option ℚ
  fs_incline_deg : Option ℚ
  bs_incline_deg : Option ℚ
  lrud_left : ℚ
  lrud_right : ℚ
  lrud_up : ℚ
  lrud_down : ℚ
  note : String
deriving DecidableEq

/-- One row of the normalized `people` table. -/
structure PersonRow where
  person_id : Nat
  full_name : String
deriving DecidableEq

/-- One row of the normalized `survey_team` table. -/
structure TeamRow where
  survey_id : Nat
  person_id : Nat
  display_name : String
  role : String
deriving DecidableEq

/-- The database: the legacy flat table and the five normalized tables. -/
structure DB where
  survey_header : List HeaderRow
  caves : List CaveRow
  surveys : List SurveyRow
  shots : List ShotRow
  people : List PersonRow
  survey_team : List TeamRow
deriving DecidableEq

/-- The empty database. -/
def emptyDB : DB := ⟨[], [], [], [], [], []⟩

/-! ### Persistence (`survey_submit` success path, app.py lines 1229–1331) -/

/-- `f"{county}, {state}" if county and state else (state or '')`
(app.py line 1266). -/
def caveLocation (county state : String) : String :=
  if county ≠ "" ∧ state ≠ "" then county ++ ", " ++ state else state

/-- Cave resolve-or-create (app.py lines 1267–1274): SELECT by
`(name, location_text)`, INSERT when absent; yields the cave id. -/
def resolveCave (name loc : String) (caves : List CaveRow) : Nat × List CaveRow :=
  match caves.find? (fun c => c.name == name && c.location_text == loc) with
  | some c => (c.cave_id, caves)
  | none => (caves.length + 1, caves ++ [⟨caves.length + 1, name, loc⟩])

/-- The cave lookup key of a submission: the stripped cave name and the
composite location, as used by the SELECT of app.py line 1267. -/
def caveKey (inp : SubmitInput) : CaveRow → Bool := fun c =>
  c.name == inp.cave_name.strip &&
    c.location_text == caveLocation inp.county.strip inp.state.strip

/-- Person resolve-or-create (app.py lines 1312–1319): SELECT by exact
`full_name`, INSERT when absent; yields the person id. -/
def resolvePerson (name : String) (people : List PersonRow) : Nat × List PersonRow :=
  match people.find? (fun p => p.full_name == name) with
  | some p => (p.person_id, people)
  | none => (people.length + 1, people ++ [⟨people.length + 1, name⟩])

/-- The team-member loop (app.py lines 1309–1325): for each role with a
non-empty name, resolve or create the person and insert a `survey_team`
row. -/
def insertTeam (professional_survey_id : Nat) (roles : List (String × String))
    (people : List PersonRow) (team : List TeamRow) : List PersonRow × List TeamRow :=
  roles.foldl
    (fun acc rp =>
      if rp.2 ≠ "" then
        let res := resolvePerson rp.2 acc.1
        (res.2, acc.2 ++ [⟨professional_survey_id, res.1, rp.2, rp.1⟩])
      else acc)
    (people, team)

/-- `float(x) if x and x.strip() else None` re-applied at app.py
lines 1234–1237.  An unparseable reading is unreachable here: header
validation already rejected it. -/
def rawFloatOrNull : RawNum → FieldVal
  | .blank => .fnull
  | .num q => .fnum q
  | .bad => .fnull

/-- The normalized shot row of `survey_shots[i]` (app.py lines 1287–1299),
with 1-based `sequence_in_page`. -/
def shotRowOf (professional_survey_id i : Nat) (s : Shot) : ShotRow :=
  ⟨professional_survey_id, i + 1, s.from_station, s.to_station, s.distance,
   s.azimuth_fs, s.azimuth_bs, s.inclination_fs, s.inclination_bs,
   s.left, s.right, s.up, s.down, s.note⟩

/-- The dual-write persistence step (app.py lines 1229–1327), executed only
after all validation passed: insert the flat header row, resolve or create
the cave, insert the normalized survey, its shots, and the team rows. -/
def persistSubmission (inp : SubmitInput) (survey_shots : List Shot) (db : DB) : DB :=
  let header : HeaderRow :=
    { id := db.survey_header.length + 1
      cave_name := inp.cave_name.strip, state := inp.state.strip
      county := inp.county.strip, region := inp.region.strip
      survey_date := inp.survey_date.strip, fsb_number := inp.fsb_number.strip
      area_in_cave := inp.area_in_cave.strip, time_in := inp.time_in.strip
      time_out := inp.time_out.strip, survey_objective := inp.survey_objective.strip
      conditions := inp.conditions.strip, other_info := inp.other_info.strip
      book_sketch_person := inp.book_sketch_person.strip
      instrument_reader := inp.instrument_reader.strip
      tape_person := inp.tape_person.strip, point_person := inp.point_person.strip
      trip_leader := inp.trip_leader.strip
      other_team_members := inp.other_team_members.strip
      compass_id := inp.compass_id.strip
      compass_frontsight := rawFloatOrNull inp.compass_frontsight
      compass_backsight := rawFloatOrNull inp.compass_backsight
      inclinometer_id := inp.inclinometer_id.strip
      inclinometer_frontsight := rawFloatOrNull inp.inclinometer_frontsight
      inclinometer_backsight := rawFloatOrNull inp.inclinometer_backsight
      crf_compass_course := inp.crf_compass_course
      calibration_notes := inp.calibration_notes.strip
      additional_equipment := inp.additional_equipment.strip
      survey_shots_json := .fromSubmit survey_shots
      raw_data := inp.raw_data.strip
      instruments_crf_course := inp.instruments_crf_course
      data_accuracy := inp.data_accuracy }
  let db1 : DB := { db with survey_header := db.survey_header ++ [header] }
  let cave_location := caveLocation inp.county.strip inp.state.strip
  let caveRes := resolveCave inp.cave_name.strip cave_location db1.caves
  let db2 : DB := { db1 with caves := caveRes.2 }
  let professional_survey_id := db2.surveys.length + 1
  let surveyRow : SurveyRow :=
    ⟨professional_survey_id, caveRes.1, inp.survey_date.strip, inp.area_in_cave.strip,
     inp.survey_objective.strip, inp.time_in.strip, inp.time_out.strip,
     inp.conditions.strip, "Form Entry", "feet", "degrees", "degrees"⟩
  let db3 : DB := { db2 with surveys := db2.surveys ++ [surveyRow] }
  let shotRows := survey_shots.enum.map (fun p => shotRowOf professional_survey_id p.1 p.2)
  let db4 : DB := { db3 with shots := db3.shots ++ shotRows }
  let team_roles :=
    [("sketch_book", inp.book_sketch_person.strip),
     ("foresight", inp.instrument_reader.strip),
     ("backsight", inp.tape_person.strip),
     ("other", inp.point_person.strip)]
  let teamRes := insertTeam professional_survey_id team_roles db4.people db4.survey_team
  { db4 with people := teamRes.1, survey_team := teamRes.2 }

/-- The observable outcome of one submission. -/
inductive SubmitOutcome where
  | headerError (msg : String) : SubmitOutcome
  | validationErrors (flashed : List String) : SubmitOutcome
  | noShots : SubmitOutcome
  | success (valid_shot_count : Nat) : SubmitOutcome
deriving DecidableEq

/-- The survey ingestion pipeline `survey_submit` (app.py lines 979–1331):
header validation, shot parsing and validation, then — only when everything
passed — the dual-write persistence.  Every rejection path returns the
database unchanged (the source opens its database connection only after all
validation). -/
def survey_submit (inp : SubmitInput) (db : DB) : SubmitOutcome × DB :=
  match headerCheck inp with
  | some m => (.headerError m, db)
  | none =>
    let pr := processShots inp
    if pr.1 ≠ [] then (.validationErrors (flashedMessages pr.1), db)
    else if pr.2.length = 0 then (.noShots, db)
    else (.success pr.2.length, persistSubmission inp pr.2 db)

/-- Whether an outcome is the success path (the only path that commits). -/
def isSuccess : SubmitOutcome → Bool
  | .success _ => true
  | _ => false

/-- The error messages flashed to the caller for each outcome (the success
flash is not an error surface and is not modelled). -/
def flashedOf : SubmitOutcome → List String
  | .headerError m => [m]
  | .validationErrors l => l
  | .noShots => ["At least one survey shot is required."]
  | .success _ => []

/-! ### Edit flow (`admin_survey_update`, app.py lines 647–758) -/

/-- The form data of one survey edit.  The instrument readings are the raw
`request.form.get` results (`none` when absent, never stripped); the shot
arrays are raw strings (the edit flow parses nothing). -/
structure EditInput where
  cave_name : String := ""
  state : String := ""
  county : String := ""
  region : String := ""
  survey_date : String := ""
  fsb_number : String := ""
  area_in_cave : String := ""
  time_in : String := ""
  time_out : String := ""
  survey_objective : String := ""
  conditions : String := ""
  other_info : String := ""
  book_sketch_person : String := ""
  instrument_reader : String := ""
  tape_person : String := ""
  point_person : String := ""
  trip_leader : String := ""
  other_team_members : String := ""
  compass_id : String := ""
  compass_frontsight : Option String := none
  compass_backsight : Option String := none
  inclinometer_id : String := ""
  inclinometer_frontsight : Option String := none
  inclinometer_backsight : Option String := none
  crf_compass_course : Bool := false
  calibration_notes : String := ""
  additional_equipment : String := ""
  instruments_crf_course : Bool := false
  data_accuracy : Bool := false
  from_stations : List String := []
  to_stations : List String := []
  distances : List String := []
  azimuth_fs_list : List String := []
  azimuth_bs_list : List String := []
  inclination_fs_list : List String := []
  inclination_bs_list : List String := []
  left_list : List String := []
  right_list : List String := []
  up_list : List String := []
  down_list : List String := []
  notes_list : List String := []
deriving DecidableEq

/-- Iteration `i` of the edit flow's shot loop (app.py lines 706–721):
a shot is kept exactly when `from_stations[i].strip()` is non-empty; every
other array is read through an `i < len(...)` guard defaulting to `''`. -/
def editShotAt (inp : EditInput) (i : Nat) : Option EditShot :=
  if i < inp.from_stations.length ∧ (inp.from_stations.getD i "").strip ≠ "" then
    some
      { from_station := inp.from_stations.getD i ""
        to_station := inp.to_stations.getD i ""
        distance := inp.distances.getD i ""
        azimuth_fs := inp.azimuth_fs_list.getD i ""
        azimuth_bs := inp.azimuth_bs_list.getD i ""
        inclination_fs := inp.inclination_fs_list.getD i ""
        inclination_bs := inp.inclination_bs_list.getD i ""
        left := inp.left_list.getD i ""
        right := inp.right_list.getD i ""
        up := inp.up_list.getD i ""
        down := inp.down_list.getD i ""
        notes := inp.notes_list.getD i "" }
  else none

/-- The rebuilt `survey_shots` array of the edit flow. -/
def buildEditShots (inp : EditInput) : List EditShot :=
  (List.range inp.from_stations.length).filterMap (editShotAt inp)

/-- An `Option String` instrument reading stored into `survey_header` by the
edit UPDATE: the raw string, or SQL NULL when absent from the form. -/
def optStrToField : Option String → FieldVal
  | none => .fnull
  | some s => .fstr s

/-- The effect of the UPDATE statement (app.py lines 729–748) on one header
row: every SET column is replaced, `survey_shots_json` with the re-serialized
new shot list; `raw_data` is not in the SET list and is preserved. -/
def applyEditUpdate (inp : EditInput) (shots : List EditShot) (h : HeaderRow) : HeaderRow :=
  { id := h.id
    cave_name := inp.cave_name.strip, state := inp.state.strip
    county := inp.county.strip, region := inp.region.strip
    survey_date := inp.survey_date.strip, fsb_number := inp.fsb_number.strip
    area_in_cave := inp.area_in_cave.strip, time_in := inp.time_in.strip
    time_out := inp.time_out.strip, survey_objective := inp.survey_objective.strip
    conditions := inp.conditions.strip, other_info := inp.other_info.strip
    book_sketch_person := inp.book_sketch_person.strip
    instrument_reader := inp.instrument_reader.strip
    tape_person := inp.tape_person.strip, point_person := inp.point_person.strip
    trip_leader := inp.trip_leader.strip
    other_team_members := inp.other_team_members.strip
    compass_id := inp.compass_id.strip
    compass_frontsight := optStrToField inp.compass_frontsight
    compass_backsight := optStrToField inp.compass_backsight
    inclinometer_id := inp.inclinometer_id.strip
    inclinometer_frontsight := optStrToField inp.inclinometer_frontsight
    inclinometer_backsight := optStrToField inp.inclinometer_backsight
    crf_compass_course := inp.crf_compass_course
    calibration_notes := inp.calibration_notes.strip
    additional_equipment := inp.additional_equipment.strip
    survey_shots_json := .fromEdit shots
    raw_data := h.raw_data
    instruments_crf_course := inp.instruments_crf_course
    data_accuracy := inp.data_accuracy }

/-- The observable outcome of one edit. -/
inductive EditOutcome where
  | validationError (msg : String) : EditOutcome
  | updated : EditOutcome
deriving DecidableEq

/-- The edit flow `admin_survey_update` (app.py lines 647–754): rebuild the
shot list from the form arrays, require a cave name and survey date, then
UPDATE the matching `survey_header` row.  No normalized table is touched. -/
def admin_survey_update (survey_id : Nat) (inp : EditInput) (db : DB) : EditOutcome × DB :=
  let survey_shots := buildEditShots inp
  if inp.cave_name.strip = "" ∨ inp.survey_date.strip = "" then
    (.validationError "Cave name and survey date are required.", db)
  else
    (.updated,
     { db with
        survey_header := db.survey_header.map
          (fun h => if h.id = survey_id then applyEditUpdate inp survey_shots h else h) })

/-! ### Concrete example inputs -/

/-- The end-to-end scenario of spec §8: a complete header naming five
distinct team members A–E in the five roles, plus one valid shot. -/
def scenarioInput : SubmitInput :=
  { cave_name := "Test Cave", survey_date := "2025-10-11"
    book_sketch_person := "A", instrument_reader := "B", tape_person := "C"
    point_person := "D", trip_leader := "E"
    compass_id := "X1", inclinometer_id := "Y1"
    crf_compass_course := true, data_accuracy := true
    from_stations := ["A1"], to_stations := ["A2"]
    distances := [.num 10], azimuth_fs_list := [.num 90]
    inclination_fs_list := [.num 0] }

/-- A submission with `from_stations=["A1","A2"]`, `to_stations=["A2",""]`
(spec §8) and an otherwise complete header. -/
def twoRowInput : SubmitInput :=
  { scenarioInput with
      from_stations := ["A1", "A2"], to_stations := ["A2", ""]
      distances := [.num 10, .num 7], azimuth_fs_list := [.num 90, .num 45]
      inclination_fs_list := [.num 0, .num 1] }

/-- An edit whose only shot row has a blank `to_station`. -/
def blankToEditInput : EditInput :=
  { cave_name := "Test Cave", survey_date := "2025-10-11"
    from_stations := ["A1"], to_stations := [""] }

/-- A submission with seven invalid shots (negative distances). -/
def sevenBadInput : SubmitInput :=
  { scenarioInput with
      from_stations := ["A", "A", "A", "A", "A", "A", "A"]
      to_stations := ["B", "B", "B", "B", "B", "B", "B"]
      distances := [.num (-1), .num (-1), .num (-1), .num (-1),
                    .num (-1), .num (-1), .num (-1)] }

/-- A stored header row with empty attributes, id 1, and one serialized
shot, as a pre-edit database state. -/
def sampleHeaderRow : HeaderRow :=
  { id := 1, cave_name := "Old Cave", state := "", county := "", region := ""
    survey_date := "2025-01-01", fsb_number := "", area_in_cave := ""
    time_in := "", time_out := "", survey_objective := "", conditions := ""
    other_info := "", book_sketch_person := "", instrument_reader := ""
    tape_person := "", point_person := "", trip_leader := ""
    other_team_members := "", compass_id := "", compass_frontsight := .fnull
    compass_backsight := .fnull, inclinometer_id := ""
    inclinometer_frontsight := .fnull, inclinometer_backsight := .fnull
    crf_compass_course := false, calibration_notes := ""
    additional_equipment := ""
    survey_shots_json := .fromSubmit
      [{ from_station := "Z1", to_station := "Z2", distance := some 3
         azimuth_fs := none, azimuth_bs := none, inclination_fs := none
         inclination_bs := none, left := 0, right := 0, up := 0, down := 0
         note := "" }]
    raw_data := "kept", instruments_crf_course := false
    data_accuracy := false }

/-- A database holding only `sampleHeaderRow`. -/
def sampleDB : DB := { emptyDB with survey_header := [sampleHeaderRow] }

/-- A shot whose frontsight/backsight variances are far above the 5° note
threshold (azimuth variance 180°, inclination variance 90°) while every
individual field is in range. -/
def largeVarianceShot : Shot :=
  { from_station := "A", to_station := "B", distance := some 10
    azimuth_fs := some 0, azimuth_bs := some 0
    inclination_fs := some 45, inclination_bs := some 45
    left := 0, right := 0, up := 0, down := 0, note := "" }

/-- A shot with a negative distance and an azimuth of exactly 360°. -/
def outOfRangeShot : Shot :=
  { from_station := "A", to_station := "B", distance := some (-1)
    azimuth_fs := some 360, azimuth_bs := none
    inclination_fs := none, inclination_bs := none
    left := 0, right := 0, up := 0, down := 0, note := "" }

/-! ### Helper lemmas -/

/-- Membership in a guarded singleton. -/
theorem mem_guard_iff {α : Type} {p : Prop} [Decidable p] {v x : α} :
    (x ∈ if p then [v] else []) ↔ p ∧ x = v := by
  split <;> simp_all

/-- Inversion of a successful shot parse: every field of the record is the
result of its guarded field parse. -/
theorem parseShotFields_ok_spec {inp : SubmitInput} {i : Nat} {s : Shot}
    (h : parseShotFields inp i = .ok s) :
    s.from_station = (inp.from_stations.getD i "").strip ∧
    s.to_station = (inp.to_stations.getD i "").strip ∧
    parseOptNum inp.distances i = .ok s.distance ∧
    parseOptNum inp.azimuth_fs_list i = .ok s.azimuth_fs ∧
    parseOptNum inp.azimuth_bs_list i = .ok s.azimuth_bs ∧
    parseOptNum inp.inclination_fs_list i = .ok s.inclination_fs ∧
    parseOptNum inp.inclination_bs_list i = .ok s.inclination_bs ∧
    parseDefNum inp.left_list i = .ok s.left ∧
    parseDefNum inp.right_list i = .ok s.right ∧
    parseDefNum inp.up_list i = .ok s.up ∧
    parseDefNum inp.down_list i = .ok s.down ∧
    s.note = noteAt inp.notes_list i := by
  unfold parseShotFields at h
  simp only [bind, Except.bind] at h
  repeat' split at h
  all_goals simp_all
  subst h
  simp

/-! ### Claim theorems -/

/-- C1: the Geometry Reducer returns `(0,0,0)` whenever any of the three
inputs is absent, and otherwise returns
`east = distance * cos(inclination_rad) * sin(azimuth_rad)`,
`north = distance * cos(inclination_rad) * cos(azimuth_rad)`,
`up = distance * sin(inclination_rad)`, with both angles converted from
degrees to radians before trigonometric use. -/
theorem shot_to_cartesian_correct :
    (∀ az inc, shot_to_cartesian none az inc = (0, 0, 0)) ∧
    (∀ d inc, shot_to_cartesian d none inc = (0, 0, 0)) ∧
    (∀ d az, shot_to_cartesian d az none = (0, 0, 0)) ∧
    (∀ d az inc : ℝ,
      shot_to_cartesian (some d) (some az) (some inc) =
        (d * Real.cos (radians inc) * Real.sin (radians az),
         d * Real.cos (radians inc) * Real.cos (radians az),
         d * Real.sin (radians inc))) ∧
    (∀ x : ℝ, radians x = x * Real.pi / 180) := by
  refine ⟨?_, ?_, ?_, ?_, ?_⟩
  · intro az inc; cases az <;> cases inc <;> rfl
  · intro d inc; cases d <;> cases inc <;> rfl
  · intro d az; cases d <;> cases az <;> rfl
  · intro d az inc; rfl
  · intro x; rfl

/-- C2: every rejected submission — missing required header field, numeric
parse failure, shot-level validation violation, or zero valid shots after
filtering — writes no row to any table of either schema: the database is
returned unchanged. -/
theorem survey_submit_rejected_no_writes (inp : SubmitInput) (db : DB)
    (h : isSuccess (survey_submit inp db).1 = false) :
    (survey_submit inp db).2 = db := by
  unfold survey_submit at h ⊢
  cases hh : headerCheck inp
  case some => rfl
  case none =>
    dsimp only at h ⊢
    split_ifs at h ⊢ <;> first | rfl | (rw [hh] at h; simp [isSuccess] at h)

/-- Witness for C2: a submission missing only `compass_id`, with an
individually valid shot, is rejected and writes nothing. -/
theorem survey_submit_rejected_no_writes_witness :
    isSuccess (survey_submit { scenarioInput with compass_id := "" } emptyDB).1 = false ∧
    (survey_submit { scenarioInput with compass_id := "" } emptyDB).2 = emptyDB :=
  ⟨by decide, survey_submit_rejected_no_writes _ _ (by decide)⟩

/-- C3 counterexample: the edit flow materializes a shot whose `to_station`
is empty after trimming — for `from_stations=["A1"]`, `to_stations=[""]` the
rebuilt shot list is non-empty, refuting the invariant for the edit flow. -/
theorem edit_flow_keeps_blank_to_station :
    ¬ (∀ s ∈ buildEditShots blankToEditInput, s.to_station.strip ≠ "") := by decide

/-- C3 (amended): in the submission pipeline a shot is considered exactly
when both `from_station` and `to_station` are non-empty after trimming (and
every collected shot has non-empty stations); the concrete two-row example
yields exactly one persisted shot; in the edit flow a shot is kept exactly
when `from_station` alone is non-empty after trimming. -/
theorem shot_materialization :
    (∀ (inp : SubmitInput) (i : Nat),
        (shotResultAt inp i).isSome = true ↔
          (i < inp.from_stations.length ∧ i < inp.to_stations.length ∧
           (inp.from_stations.getD i "").strip ≠ "" ∧
           (inp.to_stations.getD i "").strip ≠ "")) ∧
    (∀ (inp : SubmitInput), ∀ s ∈ (processShots inp).2,
        s.from_station ≠ "" ∧ s.to_station ≠ "") ∧
    (∀ (inp : EditInput) (i : Nat),
        (editShotAt inp i).isSome = true ↔
          (i < inp.from_stations.length ∧ (inp.from_stations.getD i "").strip ≠ "")) ∧
    (∀ (inp : EditInput), ∀ s ∈ buildEditShots inp, s.from_station.strip ≠ "") ∧
    (processShots twoRowInput).2.length = 1 ∧
    (survey_submit twoRowInput emptyDB).1 = .success 1 ∧
    (survey_submit twoRowInput emptyDB).2.shots.length = 1 := by
  refine ⟨?_, ?_, ?_, ?_, by decide, by decide, by decide⟩
  · intro inp i
    unfold shotResultAt
    split
    · rename_i hc
      refine ⟨fun _ => hc, fun _ => ?_⟩
      cases parseShotFields inp i <;> rfl
    · rename_i hc
      simpa using hc
  · intro inp s hs
    unfold processShots at hs
    rw [List.mem_filterMap] at hs
    obtain ⟨i, _, hi⟩ := hs
    unfold shotResultAt at hi
    split at hi
    · rename_i hc
      cases hp : parseShotFields inp i <;> rw [hp] at hi <;> simp at hi
      subst hi
      obtain ⟨hf, ht, _⟩ := parseShotFields_ok_spec hp
      exact ⟨hf ▸ hc.2.2.1, ht ▸ hc.2.2.2⟩
    · simp at hi
  · intro inp i
    unfold editShotAt
    split
    · rename_i hc; exact ⟨fun _ => hc, fun _ => rfl⟩
    · rename_i hc; simpa using hc
  · intro inp s hs
    unfold buildEditShots at hs
    rw [List.mem_filterMap] at hs
    obtain ⟨i, _, hi⟩ := hs
    unfold editShotAt at hi
    split at hi
    · rename_i hc
      injection hi with hi
      subst hi
      exact hc.2
    · simp at hi

/-- Witness for C3 (amended): the shot collected from the two-row example
has non-empty stations. -/
theorem shot_materialization_witness :
    ({ from_station := "A1", to_station := "A2", distance := some 10,
       azimuth_fs := some 90, azimuth_bs := none, inclination_fs := some 0,
       inclination_bs := none, left := 0, right := 0, up := 0, down := 0,
       note := "" } : Shot).from_station ≠ "" :=
  (shot_materialization.2.1 twoRowInput _ (by decide)).1

/-- C4: for shots with both azimuth sights present the pipeline computes the
azimuth variance as `min(|d-180|, |d-180+360|, |d-180-360|)` with
`d = |azimuth_fs - azimuth_bs|` (so fs=45, bs=225 gives 0 and fs=45, bs=220
gives 5) and the inclination variance as `|inclination_fs + inclination_bs|`;
neither variance ever produces a validation error, at the shot level or in
the collected pipeline violations. -/
theorem variance_informational :
    (∀ fs bs : ℚ, azimuthVariance fs bs =
      min (min |(|fs - bs|) - 180| |(|fs - bs|) - 180 + 360|) |(|fs - bs|) - 180 - 360|) ∧
    (∀ fs bs : ℚ, inclinationVariance fs bs = |fs + bs|) ∧
    azimuthVariance 45 225 = 0 ∧
    azimuthVariance 45 220 = 5 ∧
    (∀ (sid j : Nat) (s : Shot),
      Violation.azVarianceLarge j ∉ shotViolations sid s ∧
      Violation.incVarianceLarge j ∉ shotViolations sid s) ∧
    (∀ (inp : SubmitInput) (j : Nat),
      Violation.azVarianceLarge j ∉ (processShots inp).1 ∧
      Violation.incVarianceLarge j ∉ (processShots inp).1) := by
  refine ⟨fun fs bs => rfl, fun fs bs => rfl, by norm_num [azimuthVariance],
    by norm_num [azimuthVariance], ?_, ?_⟩
  · intro sid j s
    constructor <;> simp [shotViolations, List.mem_append, mem_guard_iff]
  · intro inp j
    have key : ∀ i r, shotResultAt inp i = some r →
        Violation.azVarianceLarge j ∉ r.1 ∧ Violation.incVarianceLarge j ∉ r.1 := by
      intro i r hr
      unfold shotResultAt at hr
      split at hr
      · split at hr <;> injection hr with hr <;> subst hr
        · constructor <;> simp
        · constructor <;> simp [shotViolations, List.mem_append, mem_guard_iff]
      · exact absurd hr (by simp)
    constructor <;>
      · intro hmem
        unfold processShots at hmem
        rw [List.mem_flatMap] at hmem
        obtain ⟨i, _, hi⟩ := hmem
        revert hi
        cases hr : shotResultAt inp i
        · simp
        · rename_i r
          intro hi
          first
            | exact (key i r hr).1 hi
            | exact (key i r hr).2 hi

/-- Witness for C4: a shot with 180° azimuth variance and 90° inclination
variance validates cleanly, and the variance violations are absent. -/
theorem variance_informational_witness :
    shotViolations 1 largeVarianceShot = [] ∧
    Violation.azVarianceLarge 1 ∉ shotViolations 1 largeVarianceShot ∧
    Violation.incVarianceLarge 1 ∉ shotViolations 1 largeVarianceShot :=
  ⟨by decide, variance_informational.2.2.2.2.1 1 1 largeVarianceShot⟩

/-- C5: the per-shot validator produces each violation exactly when the
corresponding present field is out of range — negative distance, azimuth
outside the half-open `[0, 360)`, inclination outside `[-90, 90]`, negative
LRUD, or a station name longer than 20 characters; absent numeric fields
are never violations. -/
theorem shot_validator_ranges (sid : Nat) (s : Shot) :
    (Violation.negDistance sid ∈ shotViolations sid s ↔
      ∃ d, s.distance = some d ∧ d < 0) ∧
    (Violation.azFsRange sid ∈ shotViolations sid s ↔
      ∃ a, s.azimuth_fs = some a ∧ (a < 0 ∨ 360 ≤ a)) ∧
    (Violation.azBsRange sid ∈ shotViolations sid s ↔
      ∃ a, s.azimuth_bs = some a ∧ (a < 0 ∨ 360 ≤ a)) ∧
    (Violation.incFsRange sid ∈ shotViolations sid s ↔
      ∃ a, s.inclination_fs = some a ∧ (a < -90 ∨ 90 < a)) ∧
    (Violation.incBsRange sid ∈ shotViolations sid s ↔
      ∃ a, s.inclination_bs = some a ∧ (a < -90 ∨ 90 < a)) ∧
    (Violation.lrudNegative sid ∈ shotViolations sid s ↔
      (s.left < 0 ∨ s.right < 0 ∨ s.up < 0 ∨ s.down < 0)) ∧
    (Violation.fromStationTooLong sid ∈ shotViolations sid s ↔
      20 < s.from_station.length) ∧
    (Violation.toStationTooLong sid ∈ shotViolations sid s ↔
      20 < s.to_station.length) := by
  refine ⟨?_, ?_, ?_, ?_, ?_, ?_, ?_, ?_⟩ <;>
    simp only [shotViolations, List.mem_append, mem_guard_iff]
  · cases s.distance <;> simp [badDistance]
  · cases s.azimuth_fs <;> simp [badAzimuth]
  · cases s.azimuth_bs <;> simp [badAzimuth]
  · cases s.inclination_fs <;> simp [badInclination]
  · cases s.inclination_bs <;> simp [badInclination]
  · simp [or_assoc]
  · simp
  · simp

/-- Witness for C5: a shot with `distance = -1` and `azimuth_fs = 360` gets
the negative-distance violation and the (half-open range) azimuth
violation. -/
theorem shot_validator_ranges_witness :
    Violation.negDistance 1 ∈ shotViolations 1 outOfRangeShot ∧
    Violation.azFsRange 1 ∈ shotViolations 1 outOfRangeShot :=
  ⟨(shot_validator_ranges 1 outOfRangeShot).1.mpr ⟨-1, rfl, by decide⟩,
   (shot_validator_ranges 1 outOfRangeShot).2.1.mpr ⟨360, rfl, Or.inr (by decide)⟩⟩

/-- C6 counterexample: with both the cave name and the survey date missing,
only the first header violation is surfaced — the survey-date violation,
which the checker reports on its own for the same date value, is absent —
so not all header-level violations are surfaced in one pass. -/
theorem header_violations_not_all_surfaced :
    ({} : SubmitInput).cave_name.strip = "" ∧
    ({} : SubmitInput).survey_date.strip = "" ∧
    flashedOf (survey_submit {} emptyDB).1 = ["Cave name is required."] ∧
    "Survey date is required." ∉ flashedOf (survey_submit {} emptyDB).1 ∧
    flashedOf (survey_submit { scenarioInput with survey_date := "" } emptyDB).1 =
      ["Survey date is required."] := by decide

/-- C6 (amended): when a header-level check fails, only the first failing
check's message is surfaced and processing stops; otherwise a submission
with shot-level violations surfaces the first five violation messages in one
pass, with a count-suffix summary appended when more than five exist. -/
theorem failure_surfacing (inp : SubmitInput) (db : DB) :
    (∀ m, headerCheck inp = some m →
      (survey_submit inp db).1 = .headerError m ∧
      flashedOf (survey_submit inp db).1 = [m]) ∧
    (∀ l, (survey_submit inp db).1 = .validationErrors l →
      (processShots inp).1 ≠ [] ∧
      l = ((processShots inp).1.take 5).map violationMessage ++
        (if 5 < (processShots inp).1.length then
          ["... and " ++ toString ((processShots inp).1.length - 5) ++ " more validation errors"]
        else [])) := by
  constructor
  · intro m hm
    unfold survey_submit
    rw [hm]
    exact ⟨rfl, rfl⟩
  · intro l hl
    unfold survey_submit at hl
    cases hh : headerCheck inp <;> rw [hh] at hl
    case some => exact absurd hl (by simp)
    case none =>
      dsimp only at hl
      split_ifs at hl with h1
      refine ⟨h1, ?_⟩
      injection hl with hl
      exact hl.symm

/-- Witness for C6 (amended): seven invalid shots surface exactly the first
five messages plus the two-more summary. -/
theorem failure_surfacing_witness :
    (processShots sevenBadInput).1 ≠ [] ∧
    flashedOf (survey_submit sevenBadInput emptyDB).1 =
      ((processShots sevenBadInput).1.take 5).map violationMessage ++
        (if 5 < (processShots sevenBadInput).1.length then
          ["... and " ++ toString ((processShots sevenBadInput).1.length - 5) ++ " more validation errors"]
        else []) :=
  (failure_surfacing sevenBadInput emptyDB).2
    (flashedOf (survey_submit sevenBadInput emptyDB).1) (by decide)

/-- C7 counterexample: in the §8 scenario the team loop persists only four
roles — the trip leader "E" gets no Person row, so it is not the case that
every named team-role member of the scenario is persisted. -/
theorem trip_leader_not_persisted :
    scenarioInput.trip_leader = "E" ∧
    (survey_submit scenarioInput emptyDB).1 = .success 1 ∧
    ((survey_submit scenarioInput emptyDB).2.people.map PersonRow.full_name =
      ["A", "B", "C", "D"]) ∧
    ¬ (∀ name ∈ [scenarioInput.book_sketch_person, scenarioInput.instrument_reader,
        scenarioInput.tape_person, scenarioInput.point_person, scenarioInput.trip_leader],
        ∃ p ∈ (survey_submit scenarioInput emptyDB).2.people, p.full_name = name) := by
  decide

/-- C7 (amended): the §8 scenario persists 1 header, 1 normalized survey,
1 shot, 1 cave, and exactly 4 person records with 4 team-assignment rows —
one per persisted team role (book/sketch, instrument reader, tape, point;
the trip leader is not persisted) — and returns success with shot count 1. -/
theorem scenario_end_to_end :
    (survey_submit scenarioInput emptyDB).1 = .success 1 ∧
    (survey_submit scenarioInput emptyDB).2.survey_header.length = 1 ∧
    (survey_submit scenarioInput emptyDB).2.surveys.length = 1 ∧
    (survey_submit scenarioInput emptyDB).2.shots.length = 1 ∧
    (survey_submit scenarioInput emptyDB).2.caves.length = 1 ∧
    ((survey_submit scenarioInput emptyDB).2.people.map PersonRow.full_name =
      ["A", "B", "C", "D"]) ∧
    ((survey_submit scenarioInput emptyDB).2.survey_team.map (fun t => (t.role, t.display_name)) =
      [("sketch_book", "A"), ("foresight", "B"), ("backsight", "C"), ("other", "D")]) := by
  decide

/-- A successful submission's resulting database is the persistence step
applied to the collected shots. -/
theorem survey_submit_success_db {inp : SubmitInput} {db : DB} {n : Nat} {db2 : DB}
    (h : survey_submit inp db = (.success n, db2)) :
    db2 = persistSubmission inp (processShots inp).2 db := by
  unfold survey_submit at h
  cases hh : headerCheck inp <;> rw [hh] at h
  case some => exact absurd h (by simp)
  case none =>
    dsimp only at h
    split_ifs at h <;> injection h with h1 h2
    all_goals first
      | exact h2.symm
      | exact absurd h1 (by simp)

/-- The cave table after persistence is exactly the resolve-or-create
result. -/
theorem persist_caves (inp : SubmitInput) (shots : List Shot) (db : DB) :
    (persistSubmission inp shots db).caves =
      (resolveCave inp.cave_name.strip
        (caveLocation inp.county.strip inp.state.strip) db.caves).2 := rfl

/-- Resolve-or-create does not insert when a row with the key exists. -/
theorem resolveCave_preserves {name loc : String} {caves : List CaveRow}
    (h : ∃ c ∈ caves, (c.name == name && c.location_text == loc) = true) :
    (resolveCave name loc caves).2 = caves := by
  unfold resolveCave
  cases hf : caves.find? (fun c => c.name == name && c.location_text == loc)
  · rw [List.find?_eq_none] at hf
    obtain ⟨c, hc, hp⟩ := h
    exact absurd hp (by simpa using hf c hc)
  · rfl

/-- After resolve-or-create a row with the key is present. -/
theorem resolveCave_mem (name loc : String) (caves : List CaveRow) :
    ∃ c ∈ (resolveCave name loc caves).2,
      (c.name == name && c.location_text == loc) = true := by
  unfold resolveCave
  cases hf : caves.find? (fun c => c.name == name && c.location_text == loc)
  · exact ⟨⟨caves.length + 1, name, loc⟩, by simp, by simp⟩
  · rename_i c
    refine ⟨c, List.mem_of_find?_eq_some hf, ?_⟩
    have hp := List.find?_some hf
    simpa using hp

/-- Resolve-or-create on a table without the key adds exactly one row with
the key. -/
theorem resolveCave_count_new {name loc : String} {caves : List CaveRow}
    (h : caves.countP (fun c => c.name == name && c.location_text == loc) = 0) :
    (resolveCave name loc caves).2.countP
      (fun c => c.name == name && c.location_text == loc) = 1 := by
  unfold resolveCave
  cases hf : caves.find? (fun c => c.name == name && c.location_text == loc)
  · simp [List.countP_append, h, List.countP_cons]
  · rename_i c
    have h1 := List.find?_some hf
    have h2 := List.mem_of_find?_eq_some hf
    rw [List.countP_eq_zero] at h
    exact absurd h1 (by simpa using h c h2)

/-- C8: the cave resolve-or-create step is idempotent — two sequential
successful submissions of the same input leave the cave table of the second
run unchanged (the second run resolves the existing row by its
`(name, location_text)` key), and starting without the key exactly one Cave
row with the key exists afterwards, not two. -/
theorem cave_resolve_idempotent (inp : SubmitInput) (db db₁ db₂ : DB) (n₁ n₂ : Nat)
    (h₁ : survey_submit inp db = (.success n₁, db₁))
    (h₂ : survey_submit inp db₁ = (.success n₂, db₂)) :
    db₂.caves = db₁.caves ∧
    (db.caves.countP (caveKey inp) = 0 → db₂.caves.countP (caveKey inp) = 1) := by
  have e₁ := survey_submit_success_db h₁
  have e₂ := survey_submit_success_db h₂
  subst e₁
  subst e₂
  constructor
  · rw [persist_caves, persist_caves]
    exact resolveCave_preserves (resolveCave_mem _ _ _)
  · intro h0
    rw [persist_caves, persist_caves,
        resolveCave_preserves (resolveCave_mem _ _ _)]
    exact resolveCave_count_new h0

/-- Witness for C8: submitting the §8 scenario twice from the empty database
leaves exactly one Cave row. -/
theorem cave_resolve_idempotent_witness :
    (survey_submit scenarioInput (survey_submit scenarioInput emptyDB).2).2.caves =
      (survey_submit scenarioInput emptyDB).2.caves ∧
    List.countP (caveKey scenarioInput)
      (survey_submit scenarioInput (survey_submit scenarioInput emptyDB).2).2.caves = 1 := by
  have h := cave_resolve_idempotent scenarioInput emptyDB
      (survey_submit scenarioInput emptyDB).2
      (survey_submit scenarioInput (survey_submit scenarioInput emptyDB).2).2
      1 1 (by decide) (by decide)
  exact ⟨h.1, h.2 (by decide)⟩

/-- C9: a validated edit replaces the header's entire serialized shot
sequence wholesale — the stored list is the rebuilt one, independent of the
prior row contents — and modifies only the `survey_header` table: the five
normalized tables are left unchanged. -/
theorem edit_updates_only_header (sid : Nat) (inp : EditInput) (db db2 : DB)
    (h : admin_survey_update sid inp db = (.updated, db2)) :
    db2.caves = db.caves ∧ db2.surveys = db.surveys ∧ db2.shots = db.shots ∧
    db2.people = db.people ∧ db2.survey_team = db.survey_team ∧
    db2.survey_header = db.survey_header.map
      (fun hr => if hr.id = sid then applyEditUpdate inp (buildEditShots inp) hr else hr) ∧
    (∀ hr : HeaderRow,
      (applyEditUpdate inp (buildEditShots inp) hr).survey_shots_json =
        .fromEdit (buildEditShots inp)) := by
  unfold admin_survey_update at h
  dsimp only at h
  split_ifs at h <;> injection h with h1 h2
  · exact absurd h1 (by simp)
  · subst h2
    exact ⟨rfl, rfl, rfl, rfl, rfl, rfl, fun hr => rfl⟩

/-- Witness for C9: an edit of the sample database leaves the normalized
tables unchanged and overwrites the stored shot list. -/
theorem edit_updates_only_header_witness :
    (admin_survey_update 1 blankToEditInput sampleDB).2.shots = sampleDB.shots ∧
    (admin_survey_update 1 blankToEditInput sampleDB).2.people = sampleDB.people ∧
    (applyEditUpdate blankToEditInput (buildEditShots blankToEditInput)
        sampleHeaderRow).survey_shots_json =
      .fromEdit (buildEditShots blankToEditInput) := by
  have h := edit_updates_only_header 1 blankToEditInput sampleDB
      (admin_survey_update 1 blankToEditInput sampleDB).2 (by decide)
  exact ⟨h.2.2.1, h.2.2.2.1, h.2.2.2.2.2.2 sampleHeaderRow⟩

/-- A nullable numeric field read past its array's end parses to `None`. -/
theorem parseOptNum_short {l : List RawNum} {i : Nat} (h : l.length ≤ i) :
    parseOptNum l i = .ok none := by
  unfold parseOptNum
  rw [if_neg (Nat.not_lt.mpr h)]

/-- A defaulted numeric field read past its array's end parses to `0`. -/
theorem parseDefNum_short {l : List RawNum} {i : Nat} (h : l.length ≤ i) :
    parseDefNum l i = .ok 0 := by
  unfold parseDefNum
  rw [if_neg (Nat.not_lt.mpr h)]

/-- A note read past the notes array's end is the empty string. -/
theorem noteAt_short {l : List String} {i : Nat} (h : l.length ≤ i) :
    noteAt l i = "" := by
  unfold noteAt
  rw [if_neg (Nat.not_lt.mpr h)]

/-- C10: shot parsing is total over unequal array lengths — every access to
an array other than `from_stations` is guarded by a length check, and a
field whose array is shorter than the current index is treated as absent:
`None` for distance and angles, `0` for left/right/up/down, the empty string
for the note; an index at or past `to_stations` yields no shot at all. -/
theorem short_arrays_treated_absent :
    (∀ (l : List RawNum) (i : Nat), l.length ≤ i →
      parseOptNum l i = .ok none ∧ parseDefNum l i = .ok 0) ∧
    (∀ (l : List String) (i : Nat), l.length ≤ i → noteAt l i = "") ∧
    (∀ (inp : SubmitInput) (i : Nat), inp.to_stations.length ≤ i →
      shotResultAt inp i = none) ∧
    (∀ (inp : SubmitInput) (i : Nat) (s : Shot),
      parseShotFields inp i = .ok s →
      (inp.distances.length ≤ i → s.distance = none) ∧
      (inp.azimuth_fs_list.length ≤ i → s.azimuth_fs = none) ∧
      (inp.azimuth_bs_list.length ≤ i → s.azimuth_bs = none) ∧
      (inp.inclination_fs_list.length ≤ i → s.inclination_fs = none) ∧
      (inp.inclination_bs_list.length ≤ i → s.inclination_bs = none) ∧
      (inp.left_list.length ≤ i → s.left = 0) ∧
      (inp.right_list.length ≤ i → s.right = 0) ∧
      (inp.up_list.length ≤ i → s.up = 0) ∧
      (inp.down_list.length ≤ i → s.down = 0) ∧
      (inp.notes_list.length ≤ i → s.note = "")) := by
  refine ⟨fun l i h => ⟨parseOptNum_short h, parseDefNum_short h⟩,
    fun l i h => noteAt_short h, ?_, ?_⟩
  · intro inp i h
    unfold shotResultAt
    rw [if_neg (fun hc => absurd hc.2.1 (Nat.not_lt.mpr h))]
  · intro inp i s hp
    obtain ⟨hf, ht, hd, ha1, ha2, hi1, hi2, hl, hr, hu, hdn, hn⟩ :=
      parseShotFields_ok_spec hp
    refine ⟨fun hx => ?_, fun hx => ?_, fun hx => ?_, fun hx => ?_, fun hx => ?_,
      fun hx => ?_, fun hx => ?_, fun hx => ?_, fun hx => ?_, fun hx => ?_⟩
    · rw [parseOptNum_short hx] at hd; injection hd with e; exact e.symm
    · rw [parseOptNum_short hx] at ha1; injection ha1 with e; exact e.symm
    · rw [parseOptNum_short hx] at ha2; injection ha2 with e; exact e.symm
    · rw [parseOptNum_short hx] at hi1; injection hi1 with e; exact e.symm
    · rw [parseOptNum_short hx] at hi2; injection hi2 with e; exact e.symm
    · rw [parseDefNum_short hx] at hl; injection hl with e; exact e.symm
    · rw [parseDefNum_short hx] at hr; injection hr with e; exact e.symm
    · rw [parseDefNum_short hx] at hu; injection hu with e; exact e.symm
    · rw [parseDefNum_short hx] at hdn; injection hdn with e; exact e.symm
    · rw [noteAt_short hx] at hn; exact hn

/-- Witness for C10: at index 0 of empty arrays the parsed fields default to
`None`, `0` and the empty string, and an empty `to_stations` yields no
shot. -/
theorem short_arrays_treated_absent_witness :
    parseOptNum ([] : List RawNum) 0 = .ok none ∧
    parseDefNum ([] : List RawNum) 0 = .ok 0 ∧
    noteAt ([] : List String) 0 = "" ∧
    shotResultAt { scenarioInput with to_stations := [] } 0 = none :=
  ⟨(short_arrays_treated_absent.1 [] 0 (by decide)).1,
   (short_arrays_treated_absent.1 [] 0 (by decide)).2,
   short_arrays_treated_absent.2.1 [] 0 (by decide),
   short_arrays_treated_absent.2.2.1 _ 0 (by decide)⟩

end Ckkc
